import Mathlib

/-!
Verification of the Program Synchronization & Feedback Engine of the
LiftFlow coach-client fitness tracker.

The definitions below are a shallow embedding of the TypeScript source:

* data model          — `src/lib/storage.ts` interfaces and the table shapes
                        of `src/unnamed/part_007` (drizzle schema);
* diff + dispatcher   — the `save` callback of the program-detail screen
                        (`src/unnamed/part_004`), together with
                        `addNotification` from `src/lib/storage.ts`;
* PR promotion scan   — the auto-PR block of the same `save` callback;
* video expiry sweep  — `cleanupExpiredVideos` in `src/server/routes.ts`;
* capacity gate       — the `POST /api/join-coach` handler in
                        `src/server/routes.ts`.

Effectful JavaScript (awaited storage calls, thrown exceptions) is embedded
by explicit state passing; a thrown exception is a Boolean failure flag.
JavaScript numbers are modelled as rationals, JavaScript strings as Lean
strings (the inputs considered here are ASCII).
-/

namespace LiftFlow

set_option maxRecDepth 16384

/-! ## String primitives (models of the JavaScript string methods used) -/

/-- Model of JavaScript `String.prototype.toLowerCase` (ASCII range). -/
def strLower (s : String) : String := String.mk (s.data.map Char.toLower)

/-- Model of JavaScript `String.prototype.toUpperCase` (ASCII range). -/
def strUpper (s : String) : String := String.mk (s.data.map Char.toUpper)

/-- Model of JavaScript `String.prototype.trim`. -/
def strTrim (s : String) : String :=
  String.mk (((s.data.dropWhile Char.isWhitespace).reverse.dropWhile Char.isWhitespace).reverse)

/-- Does the character list `hay` start with `needle`? -/
def startsWithList : List Char → List Char → Bool
  | _, [] => true
  | [], _ :: _ => false
  | a :: as, b :: bs => a == b && startsWithList as bs

/-- Does `needle` occur contiguously inside `hay`? -/
def containsList (hay needle : List Char) : Bool :=
  match hay with
  | [] => needle.isEmpty
  | a :: as => startsWithList (a :: as) needle || containsList as needle

/-- Model of JavaScript `hay.includes(needle)` (substring test). -/
def strIncludes (hay needle : String) : Bool := containsList hay.data needle.data

/-- Numeric value of a list of decimal digit characters. -/
def natOfDigits (cs : List Char) : Nat := cs.foldl (fun n c => 10 * n + (c.toNat - 48)) 0

/-- Model of JavaScript `parseFloat` restricted to optionally signed decimal
literals (the exponent and `Infinity` forms are not modelled; every weight
string appearing in this development is a plain decimal numeral).  A `NaN`
result is modelled as `none`. -/
def parseFloatQ (s : String) : Option ℚ :=
  let cs := (strTrim s).data
  let (neg, cs2) :=
    match cs with
    | '-' :: t => (true, t)
    | '+' :: t => (false, t)
    | t => (false, t)
  let (ip, rest) := cs2.span (·.isDigit)
  let fp :=
    match rest with
    | '.' :: t => (t.span (·.isDigit)).1
    | _ => []
  if ip.isEmpty && fp.isEmpty then none
  else
    let mag : ℚ :=
      if fp.isEmpty then (natOfDigits ip : ℚ)
      else (natOfDigits ip : ℚ) + (natOfDigits fp : ℚ) / (10 : ℚ) ^ fp.length
    some (if neg then -mag else mag)

/-! ## Data model (`src/lib/storage.ts`, `src/unnamed/part_007`) -/

/-- The fixed lift-type enumeration of the PR ledger. -/
inductive LiftType
  | squat
  | bench
  | deadlift
deriving DecidableEq

/-- A personal-record row, as the client app reads it back from `getPRs`
(the row id and owning profile are managed by the store and play no role
in the scanner, which only reads `liftType` and `weight`). -/
structure LiftPR where
  liftType : LiftType
  weight : ℚ
  unit : String
  date : String
  notes : String
deriving DecidableEq

/-- The `Exercise` interface of `src/lib/storage.ts`. -/
structure Exercise where
  id : String
  name : String
  weight : String
  repsSets : String
  rpe : String
  isCompleted : Bool
  notes : String
  clientNotes : String
  coachComment : String
  videoUrl : String
deriving DecidableEq

/-- The `WorkoutDay` interface. -/
structure WorkoutDay where
  dayNumber : Nat
  exercises : List Exercise
deriving DecidableEq

/-- The `WorkoutWeek` interface. -/
structure WorkoutWeek where
  weekNumber : Nat
  days : List WorkoutDay
deriving DecidableEq

/-- The `Program` interface of `src/lib/storage.ts`. -/
structure Program where
  id : String
  title : String
  description : String
  weeks : List WorkoutWeek
  createdAt : String
  daysPerWeek : Nat
  shareCode : String
  coachId : String
  clientId : Option String
  status : String
deriving DecidableEq

/-- All exercises of a program in week → day → exercise traversal order,
matching the nested `for` loops of the `save` callback. -/
def programExercises (p : Program) : List Exercise :=
  p.weeks.flatMap fun w => w.days.flatMap fun d => d.exercises

/-! ## PR Promotion Scanner (`src/unnamed/part_004`, auto-PR block of `save`)

The block runs after persistence, only when the actor is the client.  It
reads the PR ledger once (`const existingPRs = await getPRs()`) and never
refreshes it between promotions; each completed exercise whose name matches
the keyword table and whose parsed weight strictly exceeds the pre-save
best for its lift type appends one PR row. -/

/-- The `liftKeywords` table, in JavaScript object-literal insertion order
(`Object.entries` enumerates it in this order; the scan `break`s at the
first keyword contained in the lowercased, trimmed exercise name). -/
def liftKeywords : List (String × LiftType) :=
  [("squat", .squat), ("back squat", .squat), ("front squat", .squat),
   ("bench", .bench), ("bench press", .bench), ("flat bench", .bench),
   ("deadlift", .deadlift), ("sumo deadlift", .deadlift), ("conventional deadlift", .deadlift)]

/-- Lift-type inference: `ex.name.toLowerCase().trim()` matched by
substring against `liftKeywords`, first hit wins. -/
def classifyLift (name : String) : Option LiftType :=
  (liftKeywords.find? fun kv => strIncludes (strTrim (strLower name)) kv.1).map (·.2)

/-- `bestExisting.length > 0 ? Math.max(...bestExisting.map(p => p.weight)) : 0`
for an already-filtered weight list: JavaScript `Math.max` over a nonempty
argument list, `0` when the list is empty. -/
def maxWeight : List ℚ → ℚ
  | [] => 0
  | [x] => x
  | x :: y :: t => max x (maxWeight (y :: t))

/-- The current maximum existing PR weight for a lift type (`0` if none). -/
def currentBest (prsLedger : List LiftPR) (t : LiftType) : ℚ :=
  maxWeight ((prsLedger.filter fun p => p.liftType == t).map (·.weight))

/-- One step of the scan: the guards and promotion decision for a single
exercise, against the ledger snapshot taken before the loop.  `none` means
no PR row is appended for this exercise. -/
def tryPromote (existingPRs : List LiftPR) (unit today progTitle : String)
    (ex : Exercise) : Option LiftPR :=
  if ex.name = "" ∨ ex.weight = "" ∨ ex.isCompleted = false then none
  else
    match classifyLift ex.name with
    | none => none
    | some t =>
      match parseFloatQ ex.weight with
      | none => none
      | some w =>
        if w ≤ 0 then none
        else if currentBest existingPRs t < w then
          some { liftType := t, weight := w, unit := unit, date := today,
                 notes := "Auto-logged from " ++ progTitle ++ " - " ++ ex.name }
        else none

/-- The PR rows appended by one run of the scanner over a saved program.
The ledger argument is the single `getPRs()` snapshot; because the snapshot
is not refreshed inside the loop, the whole scan is a `filterMap` over the
traversal. -/
def autoPRScan (p : Program) (existingPRs : List LiftPR) (unit today : String) : List LiftPR :=
  (programExercises p).filterMap (tryPromote existingPRs unit today p.title)

/-! ## Diff Engine and Notification Dispatcher (`src/unnamed/part_004`)

On save, the screen reloads the stored copy of the program (`oldProgram`),
persists the edited copy, and — when the stored copy existed — walks the
edited copy's weeks/days/exercises.  For each edited exercise it looks up
the old week by `weekNumber`, the old day by `dayNumber`, and the old
exercise **by `id`** (`oldDay?.exercises.find(e => e.id === ex.id)`); an
exercise with no old counterpart, or with an empty name, is skipped
(`if (!oldEx || !ex.name) continue`). -/

/-- The two acting roles. -/
inductive Role
  | coach
  | client
deriving DecidableEq

/-- The notification `type` enumeration. -/
inductive NotifType
  | video
  | notes
  | comment
  | completion
  | chat
deriving DecidableEq

/-- A notification row as persisted through `POST /api/notifications`
(`addNotification` in `src/lib/storage.ts`); `profileId` is the addressee
already resolved by `addNotification`. -/
structure AppNotification where
  profileId : String
  type : NotifType
  title : String
  message : String
  programId : String
  programTitle : String
  exerciseName : String
  fromRole : Role
deriving DecidableEq

/-- The `ClientInfo` interface (a ClientLink as the coach app sees it):
`clientProfileId` is optional in the TypeScript interface. -/
structure ClientInfo where
  id : String
  name : String
  joinedAt : String
  clientProfileId : Option String
deriving DecidableEq

/-- JavaScript `targetProfileId || profile.id` inside `addNotification`:
an absent **or empty** target falls back to the acting user's own profile
id. -/
def fallbackProfileId (target : Option String) (selfId : String) : String :=
  match target with
  | some t => if t = "" then selfId else t
  | none => selfId

/-- Counterpart resolution in `save`: a client notifies `program.coachId`;
a coach resolves the ClientLink record whose `id` equals the program's
assigned (truthy) `clientId` and takes its `clientProfileId`.  `none` means
`targetProfileId` stays `undefined`. -/
def resolveTarget (isCoach : Bool) (p : Program) (allClients : List ClientInfo) :
    Option String :=
  if isCoach = false then some p.coachId
  else
    match p.clientId with
    | none => none
    | some cid =>
      if cid = "" then none
      else (allClients.find? fun c => c.id == cid).bind (·.clientProfileId)

/-- Old-exercise lookup of the diff step: week matched by `weekNumber`,
day by `dayNumber`, exercise by `id`. -/
def findOldExercise (oldP : Program) (weekNumber dayNumber : Nat) (exId : String) :
    Option Exercise :=
  match oldP.weeks.find? fun w => w.weekNumber == weekNumber with
  | none => none
  | some ow =>
    match ow.days.find? fun d => d.dayNumber == dayNumber with
    | none => none
    | some od => od.exercises.find? fun e => e.id == exId

/-- The notifications emitted for a single edited exercise, in the order
the `save` loop issues them (client: notes, video, completion; coach:
comment).  Message bodies are truncated with `.slice(0, 60)`. -/
def exerciseNotifs (isCoach : Bool) (target : Option String) (selfId : String)
    (p oldP : Program) (weekNumber dayNumber : Nat) (ex : Exercise) :
    List AppNotification :=
  match findOldExercise oldP weekNumber dayNumber ex.id with
  | none => []
  | some oldEx =>
    if ex.name = "" then []
    else if isCoach = false then
      (if ex.clientNotes ≠ "" ∧ ex.clientNotes ≠ oldEx.clientNotes then
        [{ profileId := fallbackProfileId target selfId, type := .notes,
           title := "New Client Notes",
           message := "Notes added on " ++ ex.name ++ ": \"" ++ ex.clientNotes.take 60 ++ "\"",
           programId := p.id, programTitle := p.title, exerciseName := ex.name,
           fromRole := .client }]
       else [])
      ++ (if ex.videoUrl ≠ "" ∧ ex.videoUrl ≠ oldEx.videoUrl then
        [{ profileId := fallbackProfileId target selfId, type := .video,
           title := "Form Check Video",
           message := "Video uploaded for " ++ ex.name,
           programId := p.id, programTitle := p.title, exerciseName := ex.name,
           fromRole := .client }]
       else [])
      ++ (if ex.isCompleted = true ∧ oldEx.isCompleted = false then
        [{ profileId := fallbackProfileId target selfId, type := .completion,
           title := "Exercise Completed",
           message := ex.name ++ " marked as completed",
           programId := p.id, programTitle := p.title, exerciseName := ex.name,
           fromRole := .client }]
       else [])
    else
      (if ex.coachComment ≠ "" ∧ ex.coachComment ≠ oldEx.coachComment then
        [{ profileId := fallbackProfileId target selfId, type := .comment,
           title := "New Coach Feedback",
           message := "Coach commented on " ++ ex.name ++ ": \"" ++ ex.coachComment.take 60 ++ "\"",
           programId := p.id, programTitle := p.title, exerciseName := ex.name,
           fromRole := .coach }]
       else [])

/-- All notifications persisted by one save, in emission order.  When the
stored copy of the program did not exist (`oldProgram` null) the diff block
is skipped entirely. -/
def saveNotifications (p : Program) (oldProgram : Option Program) (isCoach : Bool)
    (selfId : String) (allClients : List ClientInfo) : List AppNotification :=
  match oldProgram with
  | none => []
  | some oldP =>
    let target := resolveTarget isCoach p allClients
    p.weeks.flatMap fun w => w.days.flatMap fun d =>
      d.exercises.flatMap fun ex =>
        exerciseNotifs isCoach target selfId p oldP w.weekNumber d.dayNumber ex

/-! ## Video Lifecycle Manager: expiry sweep (`cleanupExpiredVideos`)

The sweep selects the viewed-and-stale artifacts (viewed more than 3 days
ago) and the never-viewed stale artifacts (uploaded more than 7 days ago),
then processes the concatenated batch in one `for` loop.  The whole
function body — selection and loop — sits under a single `try`/`catch`;
there is no per-item `catch`.  A thrown storage call is modelled by a
failure flag: `failUpdates` lists the program ids for which
`db.update(programs)` throws. -/

/-- A row of the `video_uploads` table; timestamps are milliseconds since
the epoch (`Date.getTime()`). -/
structure VideoUpload where
  id : String
  filename : String
  programId : String
  exerciseId : String
  uploadedBy : String
  coachId : String
  coachViewedAt : Option Int
  uploadedAt : Int
deriving DecidableEq

/-- The persistent state the sweep touches: the media directory, the
`video_uploads` table and the `programs` table. -/
structure SweepState where
  files : List String
  uploads : List VideoUpload
  programs : List Program
deriving DecidableEq

/-- Milliseconds per day. -/
def msPerDay : Int := 24 * 60 * 60 * 1000

/-- The batch the sweep processes: artifacts viewed before `now − 3 days`,
followed by never-viewed artifacts uploaded before `now − 7 days`. -/
def expiredSelection (now : Int) (s : SweepState) : List VideoUpload :=
  (s.uploads.filter fun r =>
    match r.coachViewedAt with
    | some t => decide (t < now - 3 * msPerDay)
    | none => false)
  ++ (s.uploads.filter fun r =>
    match r.coachViewedAt with
    | some _ => false
    | none => decide (r.uploadedAt < now - 7 * msPerDay))

/-- The per-exercise blanking condition of the sweep:
`ex.id === record.exerciseId && ex.videoUrl && ex.videoUrl.includes(record.filename)`. -/
def blankCond (r : VideoUpload) (ex : Exercise) : Bool :=
  ex.id == r.exerciseId && ex.videoUrl != "" && strIncludes ex.videoUrl r.filename

/-- Blank the video reference of an exercise the condition selects. -/
def blankExercise (r : VideoUpload) (ex : Exercise) : Exercise :=
  if blankCond r ex then { ex with videoUrl := "" } else ex

/-- One program after the blanking walk, together with the `changed` flag
that decides whether `db.update` is issued for it. -/
def blankProgram (r : VideoUpload) (p : Program) : Program × Bool :=
  ({ p with weeks := p.weeks.map fun w =>
      { w with days := w.days.map fun d =>
        { d with exercises := d.exercises.map (blankExercise r) } } },
   p.weeks.any fun w => w.days.any fun d => d.exercises.any (blankCond r))

/-- Persist an updated program row into the table. -/
def storeUpdateProgram (store : List Program) (p2 : Program) : List Program :=
  store.map fun q => if q.id == p2.id then p2 else q

/-- The inner loop over the programs selected for one artifact: each
changed program is persisted; a program id listed in `failUpdates` makes
`db.update` throw, which stops everything (`false`). -/
def updateTargets (failUpdates : List String) (r : VideoUpload) :
    List Program → List Program → List Program × Bool
  | store, [] => (store, true)
  | store, p :: ps =>
    let pc := blankProgram r p
    if pc.2 then
      if p.id ∈ failUpdates then (store, false)
      else updateTargets failUpdates r (storeUpdateProgram store pc.1) ps
    else updateTargets failUpdates r store ps

/-- Processing of one selected artifact: delete the stored media file if
present (`fs.existsSync` guard — a missing file is tolerated), blank and
persist the referencing programs (those whose id equals the artifact's
`programId`), then delete the `video_uploads` row.  The Boolean is `false`
when a `db.update` threw; the state then carries exactly the effects that
had already executed. -/
def processRecord (failUpdates : List String) (s : SweepState) (r : VideoUpload) :
    SweepState × Bool :=
  let files2 := s.files.filter fun f => f != r.filename
  let res := updateTargets failUpdates r s.programs
    (s.programs.filter fun p => p.id == r.programId)
  if res.2 then
    ({ files := files2, uploads := s.uploads.filter fun u => u.id != r.id,
       programs := res.1 }, true)
  else
    ({ files := files2, uploads := s.uploads, programs := res.1 }, false)

/-- The sweep loop: a throw while processing one artifact escapes to the
function-level `catch`, abandoning the rest of the batch. -/
def sweepLoop (failUpdates : List String) : SweepState → List VideoUpload → SweepState
  | s, [] => s
  | s, r :: rs =>
    let sc := processRecord failUpdates s r
    if sc.2 then sweepLoop failUpdates sc.1 rs else sc.1

/-- The sweep loop instrumented with a completion flag: `true` when every
record of the batch was processed without a throw, `false` when a throw
ended the run early — the state is then exactly the one reached at the
throw, with the effects of all earlier iterations already applied. -/
def runBatch (failUpdates : List String) : SweepState → List VideoUpload → SweepState × Bool
  | s, [] => (s, true)
  | s, r :: rs =>
    let sc := processRecord failUpdates s r
    if sc.2 then runBatch failUpdates sc.1 rs else (sc.1, false)

/-- One run of `cleanupExpiredVideos` at time `now`. -/
def sweepExpired (failUpdates : List String) (now : Int) (s : SweepState) : SweepState :=
  sweepLoop failUpdates s (expiredSelection now s)

/-! ## Capacity Gate (`POST /api/join-coach`, `src/server/routes.ts`) -/

/-- A row of the `profiles` table (the fields the join handler reads). -/
structure DBProfile where
  id : String
  name : String
  role : String
  coachCode : String
  plan : String
  planUserLimit : Nat
deriving DecidableEq

/-- A row of the `clients` table (a ClientLink). -/
structure ClientRow where
  id : String
  coachId : String
  clientProfileId : String
  name : String
deriving DecidableEq

/-- The handler's possible outcomes. -/
inductive JoinResult
  | invalidCode
  | existingLink (row : ClientRow)
  | alreadyHasCoach
  | capacityRejected (message : String)
  | created (row : ClientRow)
deriving DecidableEq

/-- The display name of a plan:
`plan === 'free' ? 'Free' : … : plan.charAt(0).toUpperCase() + plan.slice(1)`. -/
def planDisplayName (plan : String) : String :=
  if plan = "free" then "Free"
  else if plan = "tier_5" then "Starter"
  else if plan = "tier_10" then "Growth"
  else if plan = "saas" then "SaaS"
  else
    match plan.data with
    | [] => ""
    | c :: t => String.mk (c.toUpper :: t)

/-- The capacity rejection message, exactly as the handler builds it. -/
def capacityMessage (plan : String) (limit : Nat) : String :=
  "This coach has reached their " ++ planDisplayName plan ++ " plan limit of "
    ++ toString limit ++ " client" ++ (if limit ≠ 1 then "s" else "")
    ++ ". The coach needs to upgrade their plan to accept more clients."

/-- The `POST /api/join-coach` handler over the `profiles` and `clients`
tables.  `newId` stands for the `randomUUID()` of a freshly created row.
Checks in source order: coach lookup by uppercased code among coach
profiles; an existing link to this same coach is returned as-is; any link
to another coach rejects; then the capacity check against
`coachProfile.planUserLimit || 1` (an absent profile row skips the check);
otherwise the link is inserted.  The second component is the `clients`
table after the request. -/
def joinCoach (profilesT : List DBProfile) (clientsT : List ClientRow)
    (code clientProfileId clientName newId : String) : JoinResult × List ClientRow :=
  match profilesT.find? fun p => p.coachCode == strUpper code && p.role == "coach" with
  | none => (.invalidCode, clientsT)
  | some coach =>
    match clientsT.filter fun c => c.coachId == coach.id && c.clientProfileId == clientProfileId with
    | e :: _ => (.existingLink e, clientsT)
    | [] =>
      if (clientsT.filter fun c => c.clientProfileId == clientProfileId).length > 0 then
        (.alreadyHasCoach, clientsT)
      else
        let rejection :=
          match profilesT.find? fun p => p.id == coach.id with
          | none => none
          | some cp =>
            let plan := if cp.plan = "" then "free" else cp.plan
            let limit := if cp.planUserLimit = 0 then 1 else cp.planUserLimit
            if (clientsT.filter fun c => c.coachId == coach.id).length ≥ limit then
              some (capacityMessage plan limit)
            else none
        match rejection with
        | some msg => (.capacityRejected msg, clientsT)
        | none =>
          let row : ClientRow :=
            { id := newId, coachId := coach.id, clientProfileId := clientProfileId,
              name := if clientName = "" then "Client" else clientName }
          (.created row, clientsT ++ [row])

/-! ## Concrete scenarios

Small fixed states used to instantiate the theorems below. -/

/-- An exercise with every field empty/false, the shape `addExercise`
creates before the user types anything. -/
def emptyExercise : Exercise :=
  { id := "", name := "", weight := "", repsSets := "", rpe := "",
    isCompleted := false, notes := "", clientNotes := "", coachComment := "",
    videoUrl := "" }

/-- A minimal program shell. -/
def emptyProgram : Program :=
  { id := "", title := "", description := "", weeks := [], createdAt := "",
    daysPerWeek := 1, shareCode := "", coachId := "", clientId := none,
    status := "active" }

/-- C7: a single completed squat at weight `"100"`. -/
def exC7 : Exercise :=
  { emptyExercise with id := "e7", name := "Squat", weight := "100", isCompleted := true }

/-- C7: the saved program holding only `exC7`. -/
def progC7 : Program :=
  { emptyProgram with
    id := "p7", title := "Peak Block", coachId := "co7",
    clientId := some "c7", weeks := [⟨1, [⟨1, [exC7]⟩]⟩] }

/-- C7: the PR row the scanner is expected to append. -/
def prC7 : LiftPR :=
  { liftType := .squat, weight := 100, unit := "kg", date := "2026-02-03",
    notes := "Auto-logged from Peak Block - Squat" }

/-- C10: a program holding two given exercises in one day. -/
def progC10 (e1 e2 : Exercise) : Program :=
  { emptyProgram with
    id := "p10", title := "Doubles", coachId := "co10",
    weeks := [⟨1, [⟨1, [e1, e2]⟩]⟩] }

/-- C10 witness: first completed squat-type exercise at `"150"`. -/
def exC10a : Exercise :=
  { emptyExercise with id := "ea", name := "Squat", weight := "150", isCompleted := true }

/-- C10 witness: second completed squat-type exercise at `"150"`. -/
def exC10b : Exercise :=
  { emptyExercise with id := "eb", name := "Front Squat", weight := "150", isCompleted := true }

/-- C10 witness: the pre-existing squat PR at weight 100. -/
def prC10old : LiftPR :=
  { liftType := .squat, weight := 100, unit := "kg", date := "2026-01-01", notes := "" }

/-- C9: the bench-press exercise with a given coach comment. -/
def exC9 (comment : String) : Exercise :=
  { emptyExercise with id := "e9", name := "Bench Press", coachComment := comment }

/-- C9: the program holding `exC9 comment`, assigned to client link `c9`. -/
def progC9 (comment : String) : Program :=
  { emptyProgram with
    id := "p9", title := "Strength Block", coachId := "co9",
    clientId := some "c9", weeks := [⟨1, [⟨1, [exC9 comment]⟩]⟩] }

/-- C9: the coach's client list, resolving link `c9` to profile `cp9`. -/
def clientsC9 : List ClientInfo :=
  [{ id := "c9", name := "Casey", joinedAt := "2026-01-01", clientProfileId := some "cp9" }]

/-- C9 witness: a 77-character comment, longer than the 60-character cut. -/
def longCommentC9 : String :=
  "Keep your elbows tucked and drive the bar in a straight line every single rep"

/-- C2: a deadlift exercise with a given coach comment. -/
def exC2 (comment : String) : Exercise :=
  { emptyExercise with id := "e2", name := "Deadlift", coachComment := comment }

/-- C2: a program assigned to client id `ghost` for which no ClientLink
record exists. -/
def progC2 (comment : String) : Program :=
  { emptyProgram with
    id := "p2", title := "Pull Block", coachId := "co2",
    clientId := some "ghost", weeks := [⟨1, [⟨1, [exC2 comment]⟩]⟩] }

/-- C2: the notification the save persists, addressed to the acting
coach's own profile because no counterpart resolved. -/
def nC2 : AppNotification :=
  { profileId := "coach-1", type := .comment, title := "New Coach Feedback",
    message := "Coach commented on Deadlift: \"Nice pull\"", programId := "p2",
    programTitle := "Pull Block", exerciseName := "Deadlift", fromRole := .coach }

/-- C3: the old exercise, id `a`, with empty client notes. -/
def exC3old : Exercise := { emptyExercise with id := "a", name := "Row" }

/-- C3: the previously stored program. -/
def progC3old : Program :=
  { emptyProgram with
    id := "p3", title := "Back", coachId := "co3",
    weeks := [⟨1, [⟨1, [exC3old]⟩]⟩] }

/-- C3: the edit with client notes added, id unchanged. -/
def exC3newA : Exercise := { exC3old with clientNotes := "solid" }

/-- C3: the identical edit except the exercise id changed to `b`. -/
def exC3newB : Exercise := { exC3newA with id := "b" }

/-- C3: new document around `exC3newA`. -/
def progC3newA : Program := { progC3old with weeks := [⟨1, [⟨1, [exC3newA]⟩]⟩] }

/-- C3: new document around `exC3newB`. -/
def progC3newB : Program := { progC3old with weeks := [⟨1, [⟨1, [exC3newB]⟩]⟩] }

/-- C3: the notes notification emitted for the id-preserving edit. -/
def nC3 : AppNotification :=
  { profileId := "co3", type := .notes, title := "New Client Notes",
    message := "Notes added on Row: \"solid\"", programId := "p3",
    programTitle := "Back", exerciseName := "Row", fromRole := .client }

/-- C3 witness: a filler exercise occupying index 0 of the old day. -/
def exC3filler : Exercise := { emptyExercise with id := "x", name := "Filler" }

/-- C3 witness: old program whose day lists `exC3old` at index 1. -/
def progC3perm : Program :=
  { progC3old with weeks := [⟨1, [⟨1, [exC3filler, exC3old]⟩]⟩] }

/-- C3 witness: the day of `progC3perm`. -/
def dayC3 : WorkoutDay := ⟨1, [exC3filler, exC3old]⟩

/-- C3 witness: the week of `progC3perm`. -/
def weekC3 : WorkoutWeek := ⟨1, [dayC3]⟩

/-- C6: the untouched exercise present in both snapshots. -/
def exC6keep : Exercise := { emptyExercise with id := "k6", name := "Press" }

/-- C6: a brand-new named exercise with non-empty client notes. -/
def exC6new : Exercise :=
  { emptyExercise with id := "n6", name := "Row", clientNotes := "felt strong" }

/-- C6: the previously stored program (one exercise). -/
def progC6old : Program :=
  { emptyProgram with
    id := "p6", title := "Push", coachId := "co6",
    weeks := [⟨1, [⟨1, [exC6keep]⟩]⟩] }

/-- C6: the new document with the extra exercise appended. -/
def progC6new : Program :=
  { progC6old with weeks := [⟨1, [⟨1, [exC6keep, exC6new]⟩]⟩] }

/-- C1: an exercise referencing the first stored video. -/
def exC1 : Exercise :=
  { emptyExercise with id := "e1", name := "Squat", videoUrl := "/api/videos/f1.mp4" }

/-- C1: the program the first artifact points into. -/
def progC1 : Program :=
  { emptyProgram with
    id := "p1", title := "Vid", coachId := "co1",
    weeks := [⟨1, [⟨1, [exC1]⟩]⟩] }

/-- C1: first expired artifact (its program update will throw). -/
def upC1a : VideoUpload :=
  { id := "v1", filename := "f1.mp4", programId := "p1", exerciseId := "e1",
    uploadedBy := "cl1", coachId := "co1", coachViewedAt := none, uploadedAt := 0 }

/-- C1: second expired artifact, behind the failing one. -/
def upC1b : VideoUpload :=
  { id := "v2", filename := "f2.mp4", programId := "p2", exerciseId := "e2",
    uploadedBy := "cl1", coachId := "co1", coachViewedAt := none, uploadedAt := 0 }

/-- C1: sweep state with both artifacts stale. -/
def sC1 : SweepState :=
  { files := ["f1.mp4", "f2.mp4"], uploads := [upC1a, upC1b], programs := [progC1] }

/-- C1 witness: an exercise referencing the second stored video. -/
def exC1b : Exercise :=
  { emptyExercise with id := "e2", name := "Bench", videoUrl := "/api/videos/f2.mp4" }

/-- C1 witness: the program the second artifact points into. -/
def progC1b : Program :=
  { emptyProgram with
    id := "p2", title := "Vid2", coachId := "co1",
    weeks := [⟨1, [⟨1, [exC1b]⟩]⟩] }

/-- C1 witness: sweep state in which the first artifact processes cleanly
and the second one's program update throws (`p2` faulted). -/
def sC1m : SweepState :=
  { files := ["f1.mp4", "f2.mp4"], uploads := [upC1a, upC1b],
    programs := [progC1, progC1b] }

/-- C4: the exercise the artifact's `exerciseId` points at. -/
def exC4a : Exercise :=
  { emptyExercise with id := "e4a", name := "Squat", videoUrl := "/api/videos/f4.mp4" }

/-- C4: a second exercise referencing the same filename. -/
def exC4b : Exercise :=
  { emptyExercise with id := "e4b", name := "Pause Squat", videoUrl := "/api/videos/f4.mp4" }

/-- C4: the program holding both exercises. -/
def progC4 : Program :=
  { emptyProgram with
    id := "p4", title := "Form", coachId := "co4",
    weeks := [⟨1, [⟨1, [exC4a, exC4b]⟩]⟩] }

/-- C4: the expired (viewed 8 days ago relative to `now = 8 days`) artifact. -/
def upC4 : VideoUpload :=
  { id := "v4", filename := "f4.mp4", programId := "p4", exerciseId := "e4a",
    uploadedBy := "cl4", coachId := "co4", coachViewedAt := some 0, uploadedAt := 0 }

/-- C4: sweep state for the counterexample. -/
def sC4 : SweepState := { files := ["f4.mp4"], uploads := [upC4], programs := [progC4] }

/-- C4: `exC4a` after its reference is blanked. -/
def exC4aBlank : Exercise := { exC4a with videoUrl := "" }

/-- C4: the program as the sweep leaves it. -/
def progC4after : Program :=
  { progC4 with weeks := [⟨1, [⟨1, [exC4aBlank, exC4b]⟩]⟩] }

/-- C4 witness: an unexpired artifact that must survive processing. -/
def upC4keep : VideoUpload :=
  { id := "v4k", filename := "g.mp4", programId := "px", exerciseId := "ex",
    uploadedBy := "cl4", coachId := "co4", coachViewedAt := none,
    uploadedAt := 7 * msPerDay }

/-- C4 witness: sweep state with the extra surviving artifact. -/
def sC4w : SweepState :=
  { files := ["f4.mp4"], uploads := [upC4, upC4keep], programs := [progC4] }

/-- C5: an enterprise coach whose plan user limit is 999. -/
def coachC5 : DBProfile :=
  { id := "c5", name := "Coach", role := "coach", coachCode := "LIFT99",
    plan := "enterprise", planUserLimit := 999 }

/-- C5: one of the coach's 999 identical active links. -/
def rowC5 : ClientRow :=
  { id := "r", coachId := "c5", clientProfileId := "cp0", name := "x" }

/-- C5: the clients table holding 999 active links for the coach. -/
def clientsC5 : List ClientRow := List.replicate 999 rowC5

/-- C5 witness: a free-plan coach with limit 1. -/
def coachC5w : DBProfile :=
  { id := "cw", name := "W", role := "coach", coachCode := "ZZZ111",
    plan := "free", planUserLimit := 1 }

/-- C5 witness: the single link filling the free plan. -/
def rowC5w : ClientRow :=
  { id := "r1", coachId := "cw", clientProfileId := "other", name := "o" }

/-- Scrub invariant for C4: no exercise that the artifact's `exerciseId`
selects still references the artifact's filename. -/
def progScrubbed (r : VideoUpload) (p : Program) : Prop :=
  ∀ w ∈ p.weeks, ∀ d ∈ w.days, ∀ ex ∈ d.exercises,
    ex.id = r.exerciseId → ex.videoUrl = "" ∨ strIncludes ex.videoUrl r.filename = false

/-! ## Lemmas about the scanner's maximum computation -/

/-- Every member of a weight list is bounded by `maxWeight`. -/
theorem le_maxWeight : ∀ {l : List ℚ} {x : ℚ}, x ∈ l → x ≤ maxWeight l := by
  intro l
  induction l with
  | nil => intro x hx; cases hx
  | cons y t ih =>
    intro x hx
    cases t with
    | nil =>
      rcases List.mem_cons.mp hx with rfl | hx
      · exact le_refl _
      · cases hx
    | cons z t2 =>
      rcases List.mem_cons.mp hx with rfl | hx
      · exact le_max_left _ _
      · exact le_trans (ih hx) (le_max_right _ _)

/-- `maxWeight` of a nonempty list is attained by a member. -/
theorem maxWeight_mem : ∀ {l : List ℚ}, l ≠ [] → maxWeight l ∈ l := by
  intro l
  induction l with
  | nil => intro h; exact absurd rfl h
  | cons y t ih =>
    intro _
    cases t with
    | nil => exact List.mem_singleton.mpr rfl
    | cons z t2 =>
      show max y (maxWeight (z :: t2)) ∈ y :: z :: t2
      rcases max_cases y (maxWeight (z :: t2)) with ⟨heq, _⟩ | ⟨heq, _⟩
      · rw [heq]; exact List.mem_cons_self _ _
      · rw [heq]; exact List.mem_cons_of_mem _ (ih (by simp))

/-- A ledger member of the right lift type bounds `currentBest` from below. -/
theorem weight_le_currentBest {L : List LiftPR} {pr : LiftPR} {t : LiftType}
    (hmem : pr ∈ L) (ht : pr.liftType = t) : pr.weight ≤ currentBest L t := by
  unfold currentBest
  exact le_maxWeight (List.mem_map_of_mem _ (List.mem_filter.mpr ⟨hmem, by simp [ht]⟩))

/-- Appending rows never lowers `currentBest` while the original filtered
ledger is nonempty. -/
theorem currentBest_le_append (L A : List LiftPR) (t : LiftType)
    (h : L.filter (fun p => p.liftType == t) ≠ []) :
    currentBest L t ≤ currentBest (L ++ A) t := by
  unfold currentBest
  apply le_maxWeight
  rw [List.filter_append, List.map_append]
  apply List.mem_append_left
  exact maxWeight_mem (by simpa using h)

/-! ## Claim C7 -/

/-- Claim C7: if a client saves a program containing a single completed
exercise named "Squat" with weight "100" and the client's PR ledger holds
no squat PR, the PR Promotion Scanner creates exactly one new PR record,
of lift type squat with weight 100. -/
theorem C7_single_squat_promotion (L : List LiftPR)
    (h : ∀ pr ∈ L, pr.liftType ≠ LiftType.squat) :
    autoPRScan progC7 L "kg" "2026-02-03" = [prC7] := by
  have hf : L.filter (fun p => p.liftType == LiftType.squat) = [] :=
    List.filter_eq_nil_iff.mpr fun pr hpr => by simp [h pr hpr]
  have hcb : currentBest L LiftType.squat = 0 := by
    unfold currentBest
    rw [hf]
    rfl
  have hpe : programExercises progC7 = [exC7] := rfl
  have hstep : tryPromote L "kg" "2026-02-03" progC7.title exC7 = some prC7 := by
    unfold tryPromote
    rw [if_neg (by decide)]
    simp only [show classifyLift exC7.name = some LiftType.squat from by decide,
               show parseFloatQ exC7.weight = some 100 from by decide]
    rw [if_neg (by norm_num : ¬ (100 : ℚ) ≤ 0)]
    rw [hcb, if_pos (by norm_num : (0 : ℚ) < 100)]
    rfl
  unfold autoPRScan
  rw [hpe, List.filterMap_cons, hstep, List.filterMap_nil]

/-- Witness for C7 at the empty ledger. -/
theorem C7_witness : autoPRScan progC7 [] "kg" "2026-02-03" = [prC7] :=
  C7_single_squat_promotion [] (by intro pr hpr; cases hpr)

/-! ## Evaluation lemmas for `tryPromote` -/

/-- A failing name/weight/completion guard skips the exercise. -/
theorem tryPromote_guard_none (M : List LiftPR) (u d ti : String) (ex : Exercise)
    (hg : ex.name = "" ∨ ex.weight = "" ∨ ex.isCompleted = false) :
    tryPromote M u d ti ex = none := by
  unfold tryPromote
  rw [if_pos hg]

/-- An unrecognized exercise name skips the exercise. -/
theorem tryPromote_classify_none (M : List LiftPR) (u d ti : String) (ex : Exercise)
    (hcl : classifyLift ex.name = none) : tryPromote M u d ti ex = none := by
  unfold tryPromote
  by_cases hg : ex.name = "" ∨ ex.weight = "" ∨ ex.isCompleted = false
  · rw [if_pos hg]
  · rw [if_neg hg]
    simp only [hcl]

/-- An unparseable weight skips the exercise. -/
theorem tryPromote_parse_none (M : List LiftPR) (u d ti : String) (ex : Exercise)
    (hpf : parseFloatQ ex.weight = none) : tryPromote M u d ti ex = none := by
  unfold tryPromote
  by_cases hg : ex.name = "" ∨ ex.weight = "" ∨ ex.isCompleted = false
  · rw [if_pos hg]
  · rw [if_neg hg]
    cases hcl : classifyLift ex.name with
    | none => rfl
    | some t => simp only [hcl, hpf]

/-- With all guards passed, `tryPromote` reduces to the weight comparison. -/
theorem tryPromote_eval (M : List LiftPR) (u d ti : String) (ex : Exercise)
    (t : LiftType) (w : ℚ)
    (hg : ¬ (ex.name = "" ∨ ex.weight = "" ∨ ex.isCompleted = false))
    (hcl : classifyLift ex.name = some t) (hpf : parseFloatQ ex.weight = some w) :
    tryPromote M u d ti ex =
      if w ≤ 0 then none
      else if currentBest M t < w then
        some { liftType := t, weight := w, unit := u, date := d,
               notes := "Auto-logged from " ++ ti ++ " - " ++ ex.name }
      else none := by
  unfold tryPromote
  rw [if_neg hg]
  simp only [hcl, hpf]

/-! ## Claim C8 -/

/-- Claim C8: re-saving the same program a second time with the same
completed exercises and weights creates no additional PR record — after
the rows of the first scan are appended to the ledger, no parsed weight is
strictly greater than the maximum existing PR weight for its lift type, so
the second scan promotes nothing. -/
theorem C8_rescan_promotes_nothing (p : Program) (L : List LiftPR) (u d u2 d2 : String) :
    autoPRScan p (L ++ autoPRScan p L u d) u2 d2 = [] := by
  unfold autoPRScan
  refine List.filterMap_eq_nil_iff.mpr ?_
  intro ex hex
  by_cases hg : ex.name = "" ∨ ex.weight = "" ∨ ex.isCompleted = false
  · exact tryPromote_guard_none _ _ _ _ _ hg
  · cases hcl : classifyLift ex.name with
    | none => exact tryPromote_classify_none _ _ _ _ _ hcl
    | some t =>
      cases hpf : parseFloatQ ex.weight with
      | none => exact tryPromote_parse_none _ _ _ _ _ hpf
      | some w =>
        rw [tryPromote_eval _ u2 d2 _ _ t w hg hcl hpf]
        by_cases hw : w ≤ 0
        · rw [if_pos hw]
        · rw [if_neg hw]
          have hle : w ≤
              currentBest (L ++ (programExercises p).filterMap (tryPromote L u d p.title)) t := by
            by_cases hcb : currentBest L t < w
            · have hsome : tryPromote L u d p.title ex = some
                  { liftType := t, weight := w, unit := u, date := d,
                    notes := "Auto-logged from " ++ p.title ++ " - " ++ ex.name } := by
                rw [tryPromote_eval _ u d _ _ t w hg hcl hpf, if_neg hw, if_pos hcb]
              have hmem := List.mem_filterMap.mpr ⟨ex, hex, hsome⟩
              exact weight_le_currentBest (List.mem_append_right L hmem) rfl
            · push_neg at hcb
              have hfne : L.filter (fun q => q.liftType == t) ≠ [] := by
                intro h0
                have h1 : currentBest L t = 0 := by
                  unfold currentBest
                  rw [h0]
                  rfl
                rw [h1] at hcb
                exact hw hcb
              exact le_trans hcb (currentBest_le_append L _ t hfne)
          rw [if_neg (not_lt.mpr hle)]

/-! ## Claim C10 -/

/-- Claim C10: the scanner reads the PR ledger once per save and does not
refresh it between promotions: two distinct completed exercises of the
same save, both of lift type `t` at the same weight `W` strictly above the
pre-save best, yield two PR records of weight `W`. -/
theorem C10_stale_snapshot_double_promotion (e1 e2 : Exercise) (L : List LiftPR)
    (u d : String) (t : LiftType) (W : ℚ)
    (h1g : ¬ (e1.name = "" ∨ e1.weight = "" ∨ e1.isCompleted = false))
    (h2g : ¬ (e2.name = "" ∨ e2.weight = "" ∨ e2.isCompleted = false))
    (h1c : classifyLift e1.name = some t) (h2c : classifyLift e2.name = some t)
    (h1p : parseFloatQ e1.weight = some W) (h2p : parseFloatQ e2.weight = some W)
    (hpos : ¬ W ≤ 0) (hbest : currentBest L t < W) :
    autoPRScan (progC10 e1 e2) L u d =
      [{ liftType := t, weight := W, unit := u, date := d,
         notes := "Auto-logged from Doubles - " ++ e1.name },
       { liftType := t, weight := W, unit := u, date := d,
         notes := "Auto-logged from Doubles - " ++ e2.name }] := by
  have h1some : tryPromote L u d (progC10 e1 e2).title e1 = some
      { liftType := t, weight := W, unit := u, date := d,
        notes := "Auto-logged from Doubles - " ++ e1.name } := by
    rw [tryPromote_eval _ u d _ _ t W h1g h1c h1p, if_neg hpos, if_pos hbest]
    rfl
  have h2some : tryPromote L u d (progC10 e1 e2).title e2 = some
      { liftType := t, weight := W, unit := u, date := d,
        notes := "Auto-logged from Doubles - " ++ e2.name } := by
    rw [tryPromote_eval _ u d _ _ t W h2g h2c h2p, if_neg hpos, if_pos hbest]
    rfl
  have hpe : programExercises (progC10 e1 e2) = [e1, e2] := rfl
  unfold autoPRScan
  rw [hpe]
  simp only [List.filterMap_cons, h1some, h2some, List.filterMap_nil]

/-- Witness for C10: two squat-type exercises at `"150"` over a ledger
whose squat best is 100 produce two new squat PRs at 150 in one scan. -/
theorem C10_witness :
    autoPRScan (progC10 exC10a exC10b) [prC10old] "kg" "2026-03-01" =
      [{ liftType := .squat, weight := 150, unit := "kg", date := "2026-03-01",
         notes := "Auto-logged from Doubles - Squat" },
       { liftType := .squat, weight := 150, unit := "kg", date := "2026-03-01",
         notes := "Auto-logged from Doubles - Front Squat" }] :=
  C10_stale_snapshot_double_promotion exC10a exC10b [prC10old] "kg" "2026-03-01"
    LiftType.squat 150 (by decide) (by decide) (by decide) (by decide)
    (by decide) (by decide) (by decide) (by decide)

/-! ## Lemmas about the dispatcher -/

/-- Membership in a conditional singleton pins down the element. -/
theorem mem_if_singleton {α : Type} {c : Prop} [Decidable c] {a n : α}
    (h : n ∈ (if c then [a] else [])) : n = a := by
  split at h
  · exact List.mem_singleton.mp h
  · cases h

/-- Every notification a single exercise emits is addressed through
`fallbackProfileId target selfId`. -/
theorem mem_exerciseNotifs_profileId (isCoach : Bool) (target : Option String)
    (selfId : String) (p oldP : Program) (wn dn : Nat) (ex : Exercise)
    (n : AppNotification) (hn : n ∈ exerciseNotifs isCoach target selfId p oldP wn dn ex) :
    n.profileId = fallbackProfileId target selfId := by
  unfold exerciseNotifs at hn
  cases hfind : findOldExercise oldP wn dn ex.id with
  | none =>
    simp only [hfind] at hn
    cases hn
  | some oldEx =>
    simp only [hfind] at hn
    by_cases h1 : ex.name = ""
    · rw [if_pos h1] at hn; cases hn
    · rw [if_neg h1] at hn
      by_cases h2 : isCoach = false
      · rw [if_pos h2] at hn
        rcases List.mem_append.mp hn with hn2 | hn2
        · rcases List.mem_append.mp hn2 with hn3 | hn3
          · rw [mem_if_singleton hn3]
          · rw [mem_if_singleton hn3]
        · rw [mem_if_singleton hn2]
      · rw [if_neg h2] at hn
        rw [mem_if_singleton hn]

/-- Coach-comment emission in isolation: with the old exercise resolved by
id and the comment non-empty and changed, exactly the single comment
notification is produced. -/
theorem exerciseNotifs_coach_comment (target : Option String) (selfId : String)
    (p oldP : Program) (wn dn : Nat) (ex oldEx : Exercise)
    (hfind : findOldExercise oldP wn dn ex.id = some oldEx)
    (hname : ¬ ex.name = "")
    (hcc : ex.coachComment ≠ "" ∧ ex.coachComment ≠ oldEx.coachComment) :
    exerciseNotifs true target selfId p oldP wn dn ex =
      [{ profileId := fallbackProfileId target selfId, type := .comment,
         title := "New Coach Feedback",
         message := "Coach commented on " ++ ex.name ++ ": \"" ++ ex.coachComment.take 60 ++ "\"",
         programId := p.id, programTitle := p.title, exerciseName := ex.name,
         fromRole := .coach }] := by
  unfold exerciseNotifs
  simp only [hfind]
  rw [if_neg hname]
  rw [if_neg (by decide : ¬ (true = false))]
  rw [if_pos hcc]

/-! ## Claim C2 -/

/-- Claim C2 (counterexample): a coach saves a comment transition on a
program whose assigned client id has no ClientLink record; no counterpart
resolves, yet one comment notification is persisted — addressed to the
acting coach's own profile id — contradicting the claim that no
notification is persisted for that save. -/
theorem C2_spec_counterexample :
    resolveTarget true (progC2 "Nice pull") [] = none ∧
    saveNotifications (progC2 "Nice pull") (some (progC2 "")) true "coach-1" [] = [nC2] ∧
    nC2.profileId = "coach-1" := by decide

/-- Claim C2 (amended): if no counterpart profile id resolves for the
acting role, the save still persists its transition notifications, but
they are addressed to the acting user's own profile id (the
`targetProfileId || profile.id` fallback of `addNotification`); the save
itself does not error. -/
theorem C2_amended (p oldP : Program) (isCoach : Bool) (selfId : String)
    (clients : List ClientInfo)
    (hres : resolveTarget isCoach p clients = none) :
    ∀ n ∈ saveNotifications p (some oldP) isCoach selfId clients, n.profileId = selfId := by
  intro n hn
  simp only [saveNotifications, hres] at hn
  obtain ⟨w, hw, hn⟩ := List.mem_flatMap.mp hn
  obtain ⟨dd, hdd, hn⟩ := List.mem_flatMap.mp hn
  obtain ⟨ex, hex2, hn⟩ := List.mem_flatMap.mp hn
  have h := mem_exerciseNotifs_profileId isCoach none selfId p oldP
    w.weekNumber dd.dayNumber ex n hn
  simpa [fallbackProfileId] using h

/-- Witness for C2 (amended): the persisted notification of the concrete
unresolvable-counterpart save carries the coach's own profile id. -/
theorem C2_witness : nC2.profileId = "coach-1" :=
  C2_amended (progC2 "Nice pull") (progC2 "") true "coach-1" [] (by decide) nC2 (by decide)

/-! ## Claim C3 -/

/-- Claim C3 (counterexample): two edits identical except for the edited
exercise's id — the id-preserving edit emits a notes notification, the
id-changing edit emits nothing, so pairing is not positional and an id
change does affect which old exercise a new exercise is compared against. -/
theorem C3_spec_counterexample :
    saveNotifications progC3newA (some progC3old) false "s3c" [] = [nC3] ∧
    saveNotifications progC3newB (some progC3old) false "s3c" [] = [] := by decide

/-- Claim C3 (amended): the diff pairs a new exercise with the old
exercise found **by id** inside the old week and day matched by number —
regardless of the old exercise's index — and an exercise whose id has no
match in the old day is skipped, emitting nothing. -/
theorem C3_amended (oldP : Program) (ow : WorkoutWeek) (od : WorkoutDay)
    (wn dn : Nat) (pre post : List Exercise) (oldEx : Exercise) (exId : String)
    (hw : oldP.weeks.find? (fun w => w.weekNumber == wn) = some ow)
    (hd : ow.days.find? (fun d2 => d2.dayNumber == dn) = some od)
    (hex : od.exercises = pre ++ oldEx :: post)
    (hpre : ∀ e ∈ pre, e.id ≠ exId)
    (hid : oldEx.id = exId) :
    findOldExercise oldP wn dn exId = some oldEx
    ∧ ∀ (isCoach : Bool) (target : Option String) (selfId : String)
        (p oldP2 : Program) (wn2 dn2 : Nat) (ex : Exercise),
        findOldExercise oldP2 wn2 dn2 ex.id = none →
        exerciseNotifs isCoach target selfId p oldP2 wn2 dn2 ex = [] := by
  constructor
  · unfold findOldExercise
    simp only [hw, hd, hex]
    rw [List.find?_append]
    have hpre2 : pre.find? (fun e => e.id == exId) = none :=
      List.find?_eq_none.mpr fun e he => by simpa using hpre e he
    rw [hpre2, Option.none_or]
    exact List.find?_cons_of_pos _ (by simpa using hid)
  · intro isCoach target selfId p oldP2 wn2 dn2 ex hnone2
    unfold exerciseNotifs
    simp only [hnone2]

/-- Witness for C3 (amended): the old exercise with id `a` sits at index 1
of the old day yet is still the one found, and an exercise with the fresh
id `b` finds no counterpart and emits nothing. -/
theorem C3_witness :
    findOldExercise progC3perm 1 1 "a" = some exC3old ∧
    exerciseNotifs false none "s3" progC3newB progC3perm 1 1 exC3newB = [] := by
  obtain ⟨h1, h2⟩ := C3_amended progC3perm weekC3 dayC3 1 1 [exC3filler] [] exC3old "a"
    (by decide) (by decide) (by decide) (by decide) (by decide)
  exact ⟨h1, h2 false none "s3" progC3newB progC3perm 1 1 exC3newB (by decide)⟩

/-! ## Claim C6 -/

/-- Claim C6 (counterexample): a client adds a brand-new named exercise
with non-empty client notes; its id is absent from the old snapshot and
the save emits no notification at all — the new exercise is not diffed
against an empty old exercise. -/
theorem C6_spec_counterexample :
    exC6new.name ≠ "" ∧ exC6new.clientNotes ≠ "" ∧
    findOldExercise progC6old 1 1 exC6new.id = none ∧
    saveNotifications progC6new (some progC6old) false "s6" [] = [] := by decide

/-- Claim C6 (amended): an exercise of the new document with no old
counterpart (id not found in the old week/day, or week/day number absent)
is skipped entirely by the diff step and produces no notifications. -/
theorem C6_amended (isCoach : Bool) (target : Option String) (selfId : String)
    (p oldP : Program) (wn dn : Nat) (ex : Exercise)
    (hnone : findOldExercise oldP wn dn ex.id = none) :
    exerciseNotifs isCoach target selfId p oldP wn dn ex = [] := by
  unfold exerciseNotifs
  simp only [hnone]

/-- Witness for C6 (amended): the brand-new exercise of the concrete
scenario is skipped. -/
theorem C6_witness :
    exerciseNotifs false none "s6" progC6new progC6old 1 1 exC6new = [] :=
  C6_amended false none "s6" progC6new progC6old 1 1 exC6new (by decide)

/-! ## Claim C9 -/

/-- Claim C9: a coach changing `coachComment` from empty to "Good job" on
exercise "Bench Press" produces exactly one `comment` notification
addressed to the client's profile, with message exactly
`Coach commented on Bench Press: "Good job"`; in general the quoted
comment body is the comment truncated to its first 60 characters. -/
theorem C9_coach_comment_message :
    saveNotifications (progC9 "Good job") (some (progC9 "")) true "co9" clientsC9 =
      [{ profileId := "cp9", type := .comment, title := "New Coach Feedback",
         message := "Coach commented on Bench Press: \"Good job\"",
         programId := "p9", programTitle := "Strength Block",
         exerciseName := "Bench Press", fromRole := .coach }]
    ∧ ∀ c : String, c ≠ "" →
        saveNotifications (progC9 c) (some (progC9 "")) true "co9" clientsC9 =
          [{ profileId := "cp9", type := .comment, title := "New Coach Feedback",
             message := "Coach commented on Bench Press: \"" ++ c.take 60 ++ "\"",
             programId := "p9", programTitle := "Strength Block",
             exerciseName := "Bench Press", fromRole := .coach }] := by
  constructor
  · decide
  · intro c hc
    have h1 : (progC9 c).weeks = [⟨1, [⟨1, [exC9 c]⟩]⟩] := rfl
    have h2 : resolveTarget true (progC9 c) clientsC9 = some "cp9" := rfl
    have hsn : saveNotifications (progC9 c) (some (progC9 "")) true "co9" clientsC9 =
        exerciseNotifs true (some "cp9") "co9" (progC9 c) (progC9 "") 1 1 (exC9 c) := by
      simp only [saveNotifications, h2, h1, List.flatMap_cons, List.flatMap_nil,
        List.append_nil]
    rw [hsn]
    rw [exerciseNotifs_coach_comment (some "cp9") "co9" (progC9 c) (progC9 "") 1 1
      (exC9 c) (exC9 "") rfl (by show ¬ ("Bench Press" : String) = ""; decide) ⟨hc, hc⟩]
    rfl

/-- Witness for C9: a 77-character comment is cut to its first 60
characters in the persisted message. -/
theorem C9_witness :
    saveNotifications (progC9 longCommentC9) (some (progC9 "")) true "co9" clientsC9 =
      [{ profileId := "cp9", type := .comment, title := "New Coach Feedback",
         message := "Coach commented on Bench Press: \"" ++ longCommentC9.take 60 ++ "\"",
         programId := "p9", programTitle := "Strength Block",
         exerciseName := "Bench Press", fromRole := .coach }]
    ∧ longCommentC9.take 60 = "Keep your elbows tucked and drive the bar in a straight line" :=
  ⟨C9_coach_comment_message.2 longCommentC9 (by decide), by decide⟩

/-! ## Lemmas about the sweep -/

/-- With no injected persistence fault the inner update loop never throws. -/
theorem updateTargets_nil_snd (r : VideoUpload) :
    ∀ (ts store : List Program), (updateTargets [] r store ts).2 = true := by
  intro ts
  induction ts with
  | nil => intro store; rfl
  | cons p ps ih =>
    intro store
    show (if (blankProgram r p).2 = true then
            if p.id ∈ ([] : List String) then (store, false)
            else updateTargets [] r (storeUpdateProgram store (blankProgram r p).1) ps
          else updateTargets [] r store ps).2 = true
    by_cases h : (blankProgram r p).2 = true
    · rw [if_pos h, if_neg (List.not_mem_nil p.id)]
      exact ih _
    · rw [if_neg h]
      exact ih _

/-- With no injected fault, processing one artifact reduces to the
success branch. -/
theorem processRecord_nofail_eq (s : SweepState) (r : VideoUpload) :
    processRecord [] s r =
      ({ files := s.files.filter fun f => f != r.filename,
         uploads := s.uploads.filter fun u => u.id != r.id,
         programs := (updateTargets [] r s.programs
           (s.programs.filter fun p => p.id == r.programId)).1 }, true) := by
  simp only [processRecord]
  rw [if_pos (updateTargets_nil_snd r _ _)]

/-- A throw while processing an artifact leaves the `video_uploads` table
exactly as it was before that artifact. -/
theorem processRecord_failed_uploads (f : List String) (s : SweepState) (r : VideoUpload)
    (h : (processRecord f s r).2 = false) :
    (processRecord f s r).1.uploads = s.uploads := by
  simp only [processRecord] at h ⊢
  by_cases hres : (updateTargets f r s.programs
      (s.programs.filter fun p => p.id == r.programId)).2 = true
  · rw [if_pos hres] at h
    simp at h
  · rw [if_neg hres] at h ⊢

/-- The sweep loop is the instrumented batch run with the flag dropped. -/
theorem sweepLoop_eq_runBatch (failUpdates : List String) :
    ∀ (batch : List VideoUpload) (s : SweepState),
    sweepLoop failUpdates s batch = (runBatch failUpdates s batch).1 := by
  intro batch
  induction batch with
  | nil => intro s; rfl
  | cons r rs ih =>
    intro s
    show (if (processRecord failUpdates s r).2 = true
          then sweepLoop failUpdates (processRecord failUpdates s r).1 rs
          else (processRecord failUpdates s r).1) =
      (if (processRecord failUpdates s r).2 = true
       then runBatch failUpdates (processRecord failUpdates s r).1 rs
       else ((processRecord failUpdates s r).1, false)).1
    by_cases h : (processRecord failUpdates s r).2 = true
    · rw [if_pos h, if_pos h]
      exact ih _
    · rw [if_neg h, if_neg h]

/-- A batch that completes a prefix without throwing continues from the
state the prefix produced. -/
theorem runBatch_append_ok (failUpdates : List String) :
    ∀ (done : List VideoUpload) (s : SweepState),
    (runBatch failUpdates s done).2 = true →
    ∀ (rest : List VideoUpload),
    runBatch failUpdates s (done ++ rest) =
      runBatch failUpdates (runBatch failUpdates s done).1 rest := by
  intro done
  induction done with
  | nil => intro s _ rest; rfl
  | cons r rs ih =>
    intro s hdone rest
    by_cases h : (processRecord failUpdates s r).2 = true
    · have h1 : runBatch failUpdates s (r :: (rs ++ rest)) =
          runBatch failUpdates (processRecord failUpdates s r).1 (rs ++ rest) := by
        show (if (processRecord failUpdates s r).2 = true
              then runBatch failUpdates (processRecord failUpdates s r).1 (rs ++ rest)
              else ((processRecord failUpdates s r).1, false)) = _
        rw [if_pos h]
      have h2 : runBatch failUpdates s (r :: rs) =
          runBatch failUpdates (processRecord failUpdates s r).1 rs := by
        show (if (processRecord failUpdates s r).2 = true
              then runBatch failUpdates (processRecord failUpdates s r).1 rs
              else ((processRecord failUpdates s r).1, false)) = _
        rw [if_pos h]
      rw [show (r :: rs) ++ rest = r :: (rs ++ rest) from rfl, h1, h2]
      rw [h2] at hdone
      exact ih _ hdone rest
    · have h2 : runBatch failUpdates s (r :: rs) =
          ((processRecord failUpdates s r).1, false) := by
        show (if (processRecord failUpdates s r).2 = true
              then runBatch failUpdates (processRecord failUpdates s r).1 rs
              else ((processRecord failUpdates s r).1, false)) = _
        rw [if_neg h]
      rw [h2] at hdone
      simp at hdone

/-! ## Claim C1 -/

/-- Claim C1 (counterexample): a two-artifact batch in which the first
artifact's program update throws — the second artifact is selected but
never processed: its `video_uploads` row and its media file both survive
the sweep, so a failure for one artifact does abort the rest of the batch. -/
theorem C1_spec_counterexample :
    expiredSelection (8 * msPerDay) sC1 = [upC1a, upC1b] ∧
    (processRecord ["p1"] sC1 upC1a).2 = false ∧
    (sweepExpired ["p1"] (8 * msPerDay) sC1).uploads = [upC1a, upC1b] ∧
    "f2.mp4" ∈ (sweepExpired ["p1"] (8 * msPerDay) sC1).files := by decide

/-- Claim C1 (amended): the sweep's selection and loop sit under a single
function-level try/catch, so a thrown storage call while processing any
one selected artifact aborts the whole remaining batch: the run ends in
exactly the state reached at the throw — the artifacts before the failing
one were already fully processed, while the failing artifact's row and
the rows of every later selected artifact are not deleted in that run;
only an already-missing media file is tolerated per item (processing
without an injected persistence fault always succeeds). -/
theorem C1_batch_abort (failUpdates : List String) (now : Int) (s : SweepState)
    (done : List VideoUpload) (r : VideoUpload) (rest : List VideoUpload)
    (hsel : expiredSelection now s = done ++ r :: rest)
    (hdone : (runBatch failUpdates s done).2 = true)
    (hfail : (processRecord failUpdates (runBatch failUpdates s done).1 r).2 = false) :
    sweepExpired failUpdates now s =
      (processRecord failUpdates (runBatch failUpdates s done).1 r).1
    ∧ (sweepExpired failUpdates now s).uploads = (runBatch failUpdates s done).1.uploads
    ∧ ∀ (s2 : SweepState) (r2 : VideoUpload), (processRecord [] s2 r2).2 = true := by
  have hmain : sweepExpired failUpdates now s =
      (processRecord failUpdates (runBatch failUpdates s done).1 r).1 := by
    unfold sweepExpired
    rw [sweepLoop_eq_runBatch, hsel, runBatch_append_ok failUpdates done s hdone]
    show (if (processRecord failUpdates (runBatch failUpdates s done).1 r).2 = true
          then runBatch failUpdates
            (processRecord failUpdates (runBatch failUpdates s done).1 r).1 rest
          else ((processRecord failUpdates (runBatch failUpdates s done).1 r).1, false)).1
        = _
    rw [hfail, if_neg (by decide : ¬ (false = true))]
  refine ⟨hmain, ?_, ?_⟩
  · rw [hmain]
    exact processRecord_failed_uploads failUpdates _ r hfail
  · intro s2 r2
    rw [processRecord_nofail_eq]

/-- Witness for C1 (amended): a two-artifact batch whose second artifact
throws — the sweep ends at the throw state, in which the first artifact
was fully processed (its row deleted) and the second artifact's row
survives. -/
theorem C1_witness :
    (sweepExpired ["p2"] (8 * msPerDay) sC1m).uploads =
      (runBatch ["p2"] sC1m [upC1a]).1.uploads
    ∧ (runBatch ["p2"] sC1m [upC1a]).1.uploads = [upC1b]
    ∧ (processRecord [] sC1m upC1b).2 = true := by
  obtain ⟨h1, h2, h3⟩ := C1_batch_abort ["p2"] (8 * msPerDay) sC1m [upC1a] upC1b []
    (by decide) (by decide) (by decide)
  exact ⟨h2, by decide, h3 sC1m upC1b⟩

/-! ## Lemmas about the blanking walk -/

/-- A false blanking condition on an exercise with the matching id means
the exercise does not reference the artifact's filename. -/
theorem blankCond_false_scrub {r : VideoUpload} {ex : Exercise}
    (h : blankCond r ex = false) (hid : ex.id = r.exerciseId) :
    ex.videoUrl = "" ∨ strIncludes ex.videoUrl r.filename = false := by
  unfold blankCond at h
  simp only [hid, beq_self_eq_true, Bool.true_and] at h
  rcases Bool.and_eq_false_iff.mp h with h2 | h2
  · left
    simpa using h2
  · right
    exact h2

/-- After the blanking walk, every exercise the artifact's id selects no
longer references the filename. -/
theorem blankExercise_scrub (r : VideoUpload) (ex : Exercise)
    (hid : (blankExercise r ex).id = r.exerciseId) :
    (blankExercise r ex).videoUrl = "" ∨
      strIncludes (blankExercise r ex).videoUrl r.filename = false := by
  unfold blankExercise at hid ⊢
  by_cases h : blankCond r ex = true
  · rw [if_pos h]
    left
    rfl
  · rw [if_neg h] at hid ⊢
    exact blankCond_false_scrub (by simpa using h) hid

/-- The blanked copy of a program satisfies the scrub invariant. -/
theorem blankProgram_fst_scrubbed (r : VideoUpload) (p : Program) :
    progScrubbed r (blankProgram r p).1 := by
  intro w hw d hd ex hex hid
  simp only [blankProgram] at hw
  obtain ⟨w0, hw0, rfl⟩ := List.mem_map.mp hw
  obtain ⟨d0, hd0, rfl⟩ := List.mem_map.mp hd
  obtain ⟨ex0, hex0, rfl⟩ := List.mem_map.mp hex
  exact blankExercise_scrub r ex0 hid

/-- A program whose `changed` flag is false already satisfies the scrub
invariant. -/
theorem blankProgram_snd_false_scrubbed (r : VideoUpload) (p : Program)
    (h : (blankProgram r p).2 = false) : progScrubbed r p := by
  intro w hw d hd ex hex hid
  simp only [blankProgram] at h
  rw [List.any_eq_false] at h
  have h1 := h w hw
  rw [Bool.not_eq_true, List.any_eq_false] at h1
  have h2 := h1 d hd
  rw [Bool.not_eq_true, List.any_eq_false] at h2
  have h3 := h2 ex hex
  rw [Bool.not_eq_true] at h3
  exact blankCond_false_scrub h3 hid

/-- The update loop establishes the scrub invariant for every stored
program carrying the artifact's program id, provided every such program
not yet scrubbed is among the remaining targets. -/
theorem updateTargets_scrubbed (r : VideoUpload) :
    ∀ (ts store : List Program),
    (∀ q ∈ ts, q.id = r.programId) →
    (∀ q ∈ store, q.id = r.programId → progScrubbed r q ∨ q ∈ ts) →
    ∀ q ∈ (updateTargets [] r store ts).1, q.id = r.programId → progScrubbed r q := by
  intro ts
  induction ts with
  | nil =>
    intro store _ hstore q hq hid
    rcases hstore q hq hid with h | h
    · exact h
    · cases h
  | cons p0 ps ih =>
    intro store hts hstore q hq hid
    rw [show updateTargets [] r store (p0 :: ps) =
          if (blankProgram r p0).2 = true then
            if p0.id ∈ ([] : List String) then (store, false)
            else updateTargets [] r (storeUpdateProgram store (blankProgram r p0).1) ps
          else updateTargets [] r store ps from rfl] at hq
    by_cases hch : (blankProgram r p0).2 = true
    · rw [if_pos hch, if_neg (List.not_mem_nil p0.id)] at hq
      refine ih (storeUpdateProgram store (blankProgram r p0).1) ?_ ?_ q hq hid
      · intro q2 hq2
        exact hts q2 (List.mem_cons_of_mem _ hq2)
      · intro q2 hq2 hid2
        obtain ⟨x, hx, hq2eq⟩ := List.mem_map.mp hq2
        by_cases hxid : (x.id == (blankProgram r p0).1.id) = true
        · rw [if_pos hxid] at hq2eq
          subst hq2eq
          exact Or.inl (blankProgram_fst_scrubbed r p0)
        · rw [if_neg hxid] at hq2eq
          subst hq2eq
          exfalso
          have hp0 : (blankProgram r p0).1.id = r.programId := by
            show p0.id = r.programId
            exact hts p0 (List.mem_cons_self _ _)
          exact hxid (beq_iff_eq.mpr (hid2.trans hp0.symm))
    · rw [if_neg hch] at hq
      refine ih store ?_ ?_ q hq hid
      · intro q2 hq2
        exact hts q2 (List.mem_cons_of_mem _ hq2)
      · intro q2 hq2 hid2
        rcases hstore q2 hq2 hid2 with h | h
        · exact Or.inl h
        · rcases List.mem_cons.mp h with rfl | h2
          · exact Or.inl (blankProgram_snd_false_scrubbed r q2 (by simpa using hch))
          · exact Or.inr h2

/-! ## Claim C4 -/

/-- Claim C4 (counterexample): the artifact's program contains a second
exercise — different id — whose `videoUrl` references the same filename;
after the sweep processes the artifact, the artifact row is gone but that
exercise still references the filename, so not every referencing exercise
is blanked. -/
theorem C4_spec_counterexample :
    (sweepExpired [] (8 * msPerDay) sC4).programs = [progC4after] ∧
    (sweepExpired [] (8 * msPerDay) sC4).uploads = [] ∧
    exC4b ∈ programExercises progC4after ∧
    strIncludes exC4b.videoUrl upC4.filename = true ∧
    exC4b.videoUrl ≠ "" := by decide

/-- Claim C4 (amended): after the sweep processes a selected artifact
without faults, the artifact's `video_uploads` row is gone, and within
every stored program carrying the artifact's program id, every exercise
whose id equals the artifact's `exerciseId` no longer references the
artifact's filename (exercises with other ids, and other programs, are
not scrubbed). -/
theorem C4_processed_artifact_scrubbed (now : Int) (s : SweepState) (r : VideoUpload)
    (hsel : r ∈ expiredSelection now s) :
    (∀ u ∈ (processRecord [] s r).1.uploads, u.id ≠ r.id) ∧
    (∀ q ∈ (processRecord [] s r).1.programs, q.id = r.programId → progScrubbed r q) := by
  rw [processRecord_nofail_eq]
  constructor
  · intro u hu
    have h := (List.mem_filter.mp hu).2
    simpa using h
  · intro q hq hid
    refine updateTargets_scrubbed r (s.programs.filter fun p => p.id == r.programId)
      s.programs ?_ ?_ q hq hid
    · intro q2 hq2
      have h := (List.mem_filter.mp hq2).2
      simpa using h
    · intro q2 hq2 hid2
      exact Or.inr (List.mem_filter.mpr ⟨hq2, by simpa using hid2⟩)

/-- Witness for C4 (amended): in the concrete state the surviving
unexpired row keeps its id distinct from the processed artifact, and the
blanked exercise no longer references the filename. -/
theorem C4_witness :
    upC4keep.id ≠ upC4.id ∧
    (exC4aBlank.videoUrl = "" ∨ strIncludes exC4aBlank.videoUrl upC4.filename = false) := by
  obtain ⟨h1, h2⟩ := C4_processed_artifact_scrubbed (8 * msPerDay) sC4w upC4 (by decide)
  refine ⟨h1 upC4keep (by decide), ?_⟩
  exact h2 progC4after (by decide) (by decide) ⟨1, [⟨1, [exC4aBlank, exC4b]⟩]⟩ (by decide)
    ⟨1, [exC4aBlank, exC4b]⟩ (by decide) exC4aBlank (by decide) (by decide)

/-! ## Claim C5 -/

/-- Claim C5 (counterexample): a coach with plan user limit 999 and 999
active links — the next join request is rejected with the capacity
message, so a plan user limit of 999 does cause a capacity rejection and
is not treated as unbounded. -/
theorem C5_spec_counterexample :
    coachC5.planUserLimit = 999 ∧
    joinCoach [coachC5] clientsC5 "lift99" "cp-new" "New" "rid" =
      (.capacityRejected (capacityMessage "enterprise" 999), clientsC5) := by decide

/-- Claim C5 (amended): a join request by a client holding no ClientLink
at all, against a resolved coach whose active-link count has reached
`planUserLimit`, is rejected with the tier-specific message naming the
plan and the limit, and no ClientLink is created; the limit 999 is
enforced exactly like any other value (no unbounded special case). -/
theorem C5_capacity_rejection (profilesT : List DBProfile) (clientsT : List ClientRow)
    (code cpid cname nid : String) (coach : DBProfile)
    (hfind : profilesT.find? (fun q => q.coachCode == strUpper code && q.role == "coach")
      = some coach)
    (hfind2 : profilesT.find? (fun q => q.id == coach.id) = some coach)
    (hnolink : ∀ c ∈ clientsT, c.clientProfileId ≠ cpid)
    (hplan : ¬ coach.plan = "")
    (hlimit : ¬ coach.planUserLimit = 0)
    (hcap : coach.planUserLimit ≤ (clientsT.filter fun c => c.coachId == coach.id).length) :
    joinCoach profilesT clientsT code cpid cname nid =
      (.capacityRejected (capacityMessage coach.plan coach.planUserLimit), clientsT) := by
  unfold joinCoach
  simp only [hfind]
  have hex : (clientsT.filter fun c => c.coachId == coach.id && c.clientProfileId == cpid)
      = [] :=
    List.filter_eq_nil_iff.mpr fun c hc => by simp [hnolink c hc]
  have hany : (clientsT.filter fun c => c.clientProfileId == cpid) = [] :=
    List.filter_eq_nil_iff.mpr fun c hc => by simp [hnolink c hc]
  simp only [hex, hany]
  rw [if_neg (by decide : ¬ (([] : List ClientRow).length > 0))]
  simp only [hfind2]
  rw [if_neg hplan, if_neg hlimit, if_pos hcap]

/-- Witness for C5 (amended): a free-plan coach at the limit of one
client rejects a fresh client with the Free-plan capacity message. -/
theorem C5_witness :
    joinCoach [coachC5w] [rowC5w] "zzz111" "newbie" "N" "rid" =
      (.capacityRejected (capacityMessage "free" 1), [rowC5w]) :=
  C5_capacity_rejection [coachC5w] [rowC5w] "zzz111" "newbie" "N" "rid" coachC5w
    (by decide) (by decide) (by decide) (by decide) (by decide) (by decide)

end LiftFlow

